import Mathlib

/-!
Shallow embedding of `internal/command/session_model.go` (zitadel):
the event-sourced `SessionWriteModel`, its `Reduce` fold over session
events, the derived queries `AuthenticationTime` and `AuthMethodTypes`,
and the `Query` filter builder.

Go `time.Time` values are modelled as `Nat`: the zero value is `0`,
`t.After(u)` is `t > u`, `t.IsZero()` is `t = 0`.
Byte slices (`[]byte`) are modelled as `List Nat`.
-/

namespace Zitadel

/-- Session lifecycle states, from the `domain` package
(`domain.SessionStateUnspecified` is the Go zero value). -/
inductive SessionState
  | unspecified
  | active
  | terminated
deriving DecidableEq, Repr

/-- User authentication method kinds, from `domain.UserAuthMethodType`. -/
inductive UserAuthMethodType
  | unspecified
  | totp
  | u2f
  | passwordless
  | password
  | idp
  | otpSMS
  | otpEmail
deriving DecidableEq, Repr

/-- `WebAuthNChallengeModel` from session_model.go: the ephemeral
outstanding WebAuthn challenge.  `UserVerification` is an enum in Go,
modelled as `Nat`. -/
structure WebAuthNChallengeModel where
  challenge : String
  allowedCrentialIDs : List (List Nat)
  userVerification : Nat
  rpid : String
deriving DecidableEq, Repr

/-- The session events dispatched by `SessionWriteModel.Reduce`.
Payload fields are exactly those the reducer reads
(e.g. `e.UserID`, `e.CheckedAt`, `e.UserVerified`). -/
inductive SessionEvent
  | added
  | userChecked (userID : String) (checkedAt : Nat)
  | passwordChecked (checkedAt : Nat)
  | intentChecked (checkedAt : Nat)
  | webAuthNChallenged (challenge : String) (allowedCrentialIDs : List (List Nat))
      (userVerification : Nat) (rpid : String)
  | webAuthNChecked (checkedAt : Nat) (userVerified : Bool)
  | totpChecked (checkedAt : Nat)
  | tokenSet (tokenID : String)
  | metadataSet (key : String) (value : List Nat)
  | terminate
deriving DecidableEq, Repr

/-- `SessionWriteModel`: the projection state.  The embedded
`eventstore.WriteModel` contributes `AggregateID` and `ResourceOwner`;
the event buffer is passed to `reduce` explicitly.  `Metadata` is a
`map[string][]byte`, modelled as an association list. -/
structure SessionWriteModel where
  tokenID : String
  userID : String
  userCheckedAt : Nat
  passwordCheckedAt : Nat
  intentCheckedAt : Nat
  webAuthNCheckedAt : Nat
  totpCheckedAt : Nat
  webAuthNUserVerified : Bool
  metadata : List (String × List Nat)
  state : SessionState
  webAuthNChallenge : Option WebAuthNChallengeModel
  aggregateID : String
  resourceOwner : String
deriving DecidableEq, Repr

/-- `NewSessionWriteModel`: fresh projection, only the aggregate identity
populated; every other field is the Go zero value (`Metadata` is given an
empty map). -/
def newSessionWriteModel (sessionID resourceOwner : String) : SessionWriteModel :=
  { tokenID := ""
    userID := ""
    userCheckedAt := 0
    passwordCheckedAt := 0
    intentCheckedAt := 0
    webAuthNCheckedAt := 0
    totpCheckedAt := 0
    webAuthNUserVerified := false
    metadata := []
    state := .unspecified
    webAuthNChallenge := none
    aggregateID := sessionID
    resourceOwner := resourceOwner }

/-- One step of `SessionWriteModel.Reduce`: the type switch dispatching to
the `reduce*` methods.  Note the Go switch has no case for
`*session.MetadataSetEvent`, so a metadata-set event falls through and
leaves the model unchanged. -/
def reduceEvent (wm : SessionWriteModel) : SessionEvent → SessionWriteModel
  | .added => { wm with state := .active }
  | .userChecked userID checkedAt =>
      { wm with userID := userID, userCheckedAt := checkedAt }
  | .passwordChecked checkedAt => { wm with passwordCheckedAt := checkedAt }
  | .intentChecked checkedAt => { wm with intentCheckedAt := checkedAt }
  | .webAuthNChallenged challenge allowedCrentialIDs userVerification rpid =>
      { wm with webAuthNChallenge := some (WebAuthNChallengeModel.mk
          challenge allowedCrentialIDs userVerification rpid) }
  | .webAuthNChecked checkedAt userVerified =>
      { wm with webAuthNChallenge := none
                webAuthNCheckedAt := checkedAt
                webAuthNUserVerified := userVerified }
  | .totpChecked checkedAt => { wm with totpCheckedAt := checkedAt }
  | .tokenSet tokenID => { wm with tokenID := tokenID }
  | .metadataSet _ _ => wm
  | .terminate => { wm with state := .terminated }

/-- `SessionWriteModel.Reduce`: fold the buffered events in order. -/
def reduce (wm : SessionWriteModel) (events : List SessionEvent) : SessionWriteModel :=
  events.foldl reduceEvent wm

/-- `SessionWriteModel.AuthenticationTime`: starting from the zero time,
take each of the four check times in turn and keep it when it is
`After` (strictly later than) the accumulator. -/
def authenticationTime (wm : SessionWriteModel) : Nat :=
  [wm.passwordCheckedAt, wm.webAuthNCheckedAt, wm.totpCheckedAt,
    wm.intentCheckedAt].foldl (fun authTime check =>
      if check > authTime then check else authTime) 0

/-- `SessionWriteModel.AuthMethodTypes`: append one factor kind per
non-zero check timestamp, in source order; WebAuthN is reported as
passwordless when user-verified, else as U2F. -/
def authMethodTypes (wm : SessionWriteModel) : List UserAuthMethodType :=
  let types : List UserAuthMethodType := []
  let types := if wm.passwordCheckedAt ≠ 0 then
      types ++ [UserAuthMethodType.password] else types
  let types := if wm.webAuthNCheckedAt ≠ 0 then
      (if wm.webAuthNUserVerified then types ++ [UserAuthMethodType.passwordless]
        else types ++ [UserAuthMethodType.u2f]) else types
  let types := if wm.intentCheckedAt ≠ 0 then
      types ++ [UserAuthMethodType.idp] else types
  let types := if wm.totpCheckedAt ≠ 0 then
      types ++ [UserAuthMethodType.totp] else types
  types

/-- The event-type identifiers listed in `Query` (the `session.*Type`
constants). -/
inductive SessionEventType
  | addedType
  | userCheckedType
  | passwordCheckedType
  | intentCheckedType
  | webAuthNChallengedType
  | webAuthNCheckedType
  | totpCheckedType
  | tokenSetType
  | metadataSetType
  | terminateType
deriving DecidableEq, Repr

/-- Modelled from the spec: one event filter of the eventstore search
query contract (`§6`: "given {aggregate type, aggregate id(s), resource
owner (optional), set of event kinds}, returns an ordered sequence of
matching events").  The `eventstore` package itself is not under `src/`. -/
structure SearchQuery where
  aggregateTypes : List String
  aggregateIDs : List String
  eventTypes : List SessionEventType
deriving DecidableEq, Repr

/-- Modelled from the spec: the result of the fluent
`eventstore.SearchQueryBuilder` chain — a list of event filters plus an
optional resource-owner equality filter ("absence of a known owner means
no owner filter, not owner = empty string"). -/
structure SearchQueryBuilder where
  queries : List SearchQuery
  resourceOwner : Option String
deriving DecidableEq, Repr

/-- `SessionWriteModel.Query`: build the filter for this aggregate's
history — aggregate type `session`, the model's aggregate id, the ten
session event types — and add the resource-owner filter only when the
model's resource owner is non-empty. -/
def query (wm : SessionWriteModel) : SearchQueryBuilder :=
  let q : SearchQuery :=
    { aggregateTypes := ["session"]
      aggregateIDs := [wm.aggregateID]
      eventTypes :=
        [SessionEventType.addedType,
         SessionEventType.userCheckedType,
         SessionEventType.passwordCheckedType,
         SessionEventType.intentCheckedType,
         SessionEventType.webAuthNChallengedType,
         SessionEventType.webAuthNCheckedType,
         SessionEventType.totpCheckedType,
         SessionEventType.tokenSetType,
         SessionEventType.metadataSetType,
         SessionEventType.terminateType] }
  let builder : SearchQueryBuilder := { queries := [q], resourceOwner := none }
  if wm.resourceOwner ≠ "" then
    { builder with resourceOwner := some wm.resourceOwner }
  else builder

/-- Recognizes a user-checked event. -/
def isUserChecked : SessionEvent → Bool
  | .userChecked _ _ => true
  | _ => false

/-- Recognizes the four factor-check events (password, webauthn, totp,
intent). -/
def isFactorCheck : SessionEvent → Bool
  | .passwordChecked _ => true
  | .webAuthNChecked _ _ => true
  | .totpChecked _ => true
  | .intentChecked _ => true
  | _ => false

/-- The `CheckedAt` payload of a factor-check event (zero otherwise). -/
def checkTime : SessionEvent → Nat
  | .passwordChecked t => t
  | .webAuthNChecked t _ => t
  | .totpChecked t => t
  | .intentChecked t => t
  | _ => 0
/-- Folding a concatenation equals folding the second part on the result
of the first. -/
theorem reduce_append (wm : SessionWriteModel) (E F : List SessionEvent) :
    reduce wm (E ++ F) = reduce (reduce wm E) F := by
  simp [reduce, List.foldl_append]

/-- The `AuthenticationTime` fold computes the maximum of the four check
timestamps (the Go zero time being `0`). -/
theorem authenticationTime_eq (wm : SessionWriteModel) :
    authenticationTime wm =
      max (max (max wm.passwordCheckedAt wm.webAuthNCheckedAt)
        wm.totpCheckedAt) wm.intentCheckedAt := by
  simp only [authenticationTime, List.foldl]
  split_ifs <;> omega

/-- Membership of the password kind in `AuthMethodTypes`. -/
theorem mem_authMethodTypes_password (wm : SessionWriteModel) :
    UserAuthMethodType.password ∈ authMethodTypes wm ↔ wm.passwordCheckedAt ≠ 0 := by
  unfold authMethodTypes
  split_ifs <;> simp_all

/-- Membership of the passwordless kind in `AuthMethodTypes`. -/
theorem mem_authMethodTypes_passwordless (wm : SessionWriteModel) :
    UserAuthMethodType.passwordless ∈ authMethodTypes wm ↔
      (wm.webAuthNCheckedAt ≠ 0 ∧ wm.webAuthNUserVerified = true) := by
  unfold authMethodTypes
  split_ifs <;> simp_all

/-- Membership of the U2F kind in `AuthMethodTypes`. -/
theorem mem_authMethodTypes_u2f (wm : SessionWriteModel) :
    UserAuthMethodType.u2f ∈ authMethodTypes wm ↔
      (wm.webAuthNCheckedAt ≠ 0 ∧ wm.webAuthNUserVerified = false) := by
  unfold authMethodTypes
  split_ifs <;> simp_all

/-- Membership of the IDP (intent) kind in `AuthMethodTypes`. -/
theorem mem_authMethodTypes_idp (wm : SessionWriteModel) :
    UserAuthMethodType.idp ∈ authMethodTypes wm ↔ wm.intentCheckedAt ≠ 0 := by
  unfold authMethodTypes
  split_ifs <;> simp_all

/-- Membership of the TOTP kind in `AuthMethodTypes`. -/
theorem mem_authMethodTypes_totp (wm : SessionWriteModel) :
    UserAuthMethodType.totp ∈ authMethodTypes wm ↔ wm.totpCheckedAt ≠ 0 := by
  unfold authMethodTypes
  split_ifs <;> simp_all

/-- `AuthMethodTypes` always appears in the fixed order password,
webauthn (passwordless or U2F), intent, totp. -/
theorem authMethodTypes_sublist (wm : SessionWriteModel) :
    (authMethodTypes wm).Sublist
      [UserAuthMethodType.password,
       if wm.webAuthNUserVerified then UserAuthMethodType.passwordless
         else UserAuthMethodType.u2f,
       UserAuthMethodType.idp, UserAuthMethodType.totp] := by
  unfold authMethodTypes
  cases hv : wm.webAuthNUserVerified <;> split_ifs <;> simp_all

/-- Events other than user-checked never change `userID`. -/
theorem reduce_userID_of_no_userChecked (F : List SessionEvent) :
    ∀ (wm : SessionWriteModel), (∀ e ∈ F, isUserChecked e = false) →
      (reduce wm F).userID = wm.userID := by
  induction F with
  | nil => intro wm _; rfl
  | cons e F ih =>
    intro wm h
    have he := h e (List.mem_cons_self e F)
    have hF := fun e2 h2 => h e2 (List.mem_cons_of_mem e h2)
    have step : reduce wm (e :: F) = reduce (reduceEvent wm e) F := rfl
    rw [step, ih _ hF]
    cases e <;> simp_all [reduceEvent, isUserChecked]

/-- Claim C1, counterexample: folding two user-checked events leaves
`userID` equal to the SECOND event's user, not the first — the reducer
overwrites `userID` on every user-checked event. -/
theorem c1_counterexample :
    (reduce (newSessionWriteModel "s1" "o1")
      [SessionEvent.userChecked "u1" 1, SessionEvent.userChecked "u2" 2]).userID = "u2" ∧
    ("u2" : String) ≠ "u1" := ⟨rfl, by decide⟩

/-- Claim C1, amended: `userID` is last-writer-wins — after folding any
sequence whose last user-checked event carries user `u`, `userID` equals
`u`. -/
theorem c1_user_id_last_writer_wins (wm : SessionWriteModel)
    (E F : List SessionEvent) (u : String) (t : Nat)
    (hF : ∀ e ∈ F, isUserChecked e = false) :
    (reduce wm (E ++ SessionEvent.userChecked u t :: F)).userID = u := by
  have hsplit : E ++ SessionEvent.userChecked u t :: F =
      (E ++ [SessionEvent.userChecked u t]) ++ F := by simp
  rw [hsplit, reduce_append, reduce_userID_of_no_userChecked F _ hF, reduce_append]
  rfl

/-- Witness for claim C1 at a concrete event sequence. -/
theorem c1_witness :
    (reduce (newSessionWriteModel "s1" "o1")
      ([SessionEvent.added] ++ SessionEvent.userChecked "u2" 2 ::
        [SessionEvent.passwordChecked 3])).userID = "u2" :=
  c1_user_id_last_writer_wins _ _ _ _ _ (by decide)

/-- Claim C2: the `Reduce` type switch in session_model.go has no case
for the metadata-set event, so folding one leaves the metadata map empty
— the event's key/value pair is NOT upserted, contradicting the spec's
reducer table and the model's own `Query` (which fetches the
metadata-set event type) and its initialized `Metadata` map. -/
theorem c2_metadata_event_dropped :
    (reduce (newSessionWriteModel "s1" "o1")
      [SessionEvent.metadataSet "key1" [1, 2]]).metadata = [] := rfl

/-- Claim C3: `AuthenticationTime` returns the maximum of the password,
webauthn, totp and intent check timestamps, is the zero time exactly
when all four are unset, and is unaffected by `userCheckedAt`. -/
theorem c3_authentication_time_is_max (wm : SessionWriteModel) (x : Nat) :
    authenticationTime wm =
      max (max (max wm.passwordCheckedAt wm.webAuthNCheckedAt) wm.totpCheckedAt)
        wm.intentCheckedAt ∧
    (authenticationTime wm = 0 ↔
      (wm.passwordCheckedAt = 0 ∧ wm.webAuthNCheckedAt = 0 ∧
        wm.totpCheckedAt = 0 ∧ wm.intentCheckedAt = 0)) ∧
    authenticationTime { wm with userCheckedAt := x } = authenticationTime wm := by
  refine ⟨authenticationTime_eq wm, ?_, rfl⟩
  rw [authenticationTime_eq]
  omega

/-- Claim C4: `AuthMethodTypes` contains exactly the factor kinds whose
check timestamp is non-zero — password iff set, passwordless iff
webauthn set and user-verified, U2F iff webauthn set and not
user-verified, IDP iff intent set, TOTP iff totp set — and the result is
always a sublist of the fixed order password, webauthn, intent, totp. -/
theorem c4_auth_method_types (wm : SessionWriteModel) :
    (UserAuthMethodType.password ∈ authMethodTypes wm ↔ wm.passwordCheckedAt ≠ 0) ∧
    (UserAuthMethodType.passwordless ∈ authMethodTypes wm ↔
      (wm.webAuthNCheckedAt ≠ 0 ∧ wm.webAuthNUserVerified = true)) ∧
    (UserAuthMethodType.u2f ∈ authMethodTypes wm ↔
      (wm.webAuthNCheckedAt ≠ 0 ∧ wm.webAuthNUserVerified = false)) ∧
    (UserAuthMethodType.idp ∈ authMethodTypes wm ↔ wm.intentCheckedAt ≠ 0) ∧
    (UserAuthMethodType.totp ∈ authMethodTypes wm ↔ wm.totpCheckedAt ≠ 0) ∧
    (authMethodTypes wm).Sublist
      [UserAuthMethodType.password,
       if wm.webAuthNUserVerified then UserAuthMethodType.passwordless
         else UserAuthMethodType.u2f,
       UserAuthMethodType.idp, UserAuthMethodType.totp] :=
  ⟨mem_authMethodTypes_password wm, mem_authMethodTypes_passwordless wm,
   mem_authMethodTypes_u2f wm, mem_authMethodTypes_idp wm,
   mem_authMethodTypes_totp wm, authMethodTypes_sublist wm⟩

/-- Claim C5: after folding any event sequence ending in a
webauthn-checked event, the outstanding challenge is nil, no matter how
many webauthn-challenged events occurred earlier. -/
theorem c5_challenge_cleared (wm : SessionWriteModel) (E : List SessionEvent)
    (t : Nat) (v : Bool) :
    (reduce wm (E ++ [SessionEvent.webAuthNChecked t v])).webAuthNChallenge = none := by
  rw [reduce_append]
  rfl

/-- Claim C6, counterexample: appending a password-checked event whose
`CheckedAt` payload is earlier than the current authentication time
strictly DECREASES `AuthenticationTime` (10 drops to 3), because the
reducer overwrites the timestamp with the event's payload value. -/
theorem c6_counterexample :
    authenticationTime (reduce (newSessionWriteModel "s1" "o1")
        ([SessionEvent.passwordChecked 10] ++ [SessionEvent.passwordChecked 3])) <
      authenticationTime (reduce (newSessionWriteModel "s1" "o1")
        [SessionEvent.passwordChecked 10]) := by decide

/-- Claim C6, amended: appending a further factor-check event never
decreases `AuthenticationTime`, provided the event's `CheckedAt` is not
earlier than the current authentication time (which holds under correct
replay order, where check timestamps move forward). -/
theorem c6_monotonic (wm : SessionWriteModel) (E : List SessionEvent)
    (e : SessionEvent) (hcheck : isFactorCheck e = true)
    (ht : authenticationTime (reduce wm E) ≤ checkTime e) :
    authenticationTime (reduce wm E) ≤ authenticationTime (reduce wm (E ++ [e])) := by
  rw [reduce_append]
  rw [authenticationTime_eq] at ht ⊢
  rw [authenticationTime_eq]
  cases e <;> simp_all [isFactorCheck, checkTime, reduce, reduceEvent]

/-- Witness for claim C6 at a concrete event sequence. -/
theorem c6_witness :
    authenticationTime (reduce (newSessionWriteModel "s1" "o1")
        [SessionEvent.passwordChecked 5]) ≤
      authenticationTime (reduce (newSessionWriteModel "s1" "o1")
        ([SessionEvent.passwordChecked 5] ++ [SessionEvent.totpChecked 7])) :=
  c6_monotonic _ [SessionEvent.passwordChecked 5] (SessionEvent.totpChecked 7)
    rfl (by decide)

/-- Claim C7: terminate is idempotent — folding two terminate events
yields exactly the same projection state as folding one. -/
theorem c7_terminate_idempotent (wm : SessionWriteModel) (E : List SessionEvent) :
    reduce wm (E ++ [SessionEvent.terminate, SessionEvent.terminate]) =
      reduce wm (E ++ [SessionEvent.terminate]) := by
  rw [reduce_append, reduce_append]
  rfl

/-- Claim C8: the reducer keeps folding after a terminate event —
[added, password-checked(t1), terminate, password-checked(t2)] yields
state terminated AND passwordCheckedAt = t2. -/
theorem c8_reduce_continues_after_terminate (sid own : String) (t1 t2 : Nat) :
    (reduce (newSessionWriteModel sid own)
      [SessionEvent.added, SessionEvent.passwordChecked t1,
       SessionEvent.terminate, SessionEvent.passwordChecked t2]).state =
        SessionState.terminated ∧
    (reduce (newSessionWriteModel sid own)
      [SessionEvent.added, SessionEvent.passwordChecked t1,
       SessionEvent.terminate, SessionEvent.passwordChecked t2]).passwordCheckedAt = t2 :=
  ⟨rfl, rfl⟩

/-- Claim C9: `Query` builds exactly one filter — aggregate type
session, the model's aggregate id, the closed set of ten session event
types — and adds a resource-owner equality filter exactly when the
model's resource owner is a non-empty string. -/
theorem c9_query_filter (wm : SessionWriteModel) :
    (query wm).queries =
      [{ aggregateTypes := ["session"]
         aggregateIDs := [wm.aggregateID]
         eventTypes :=
          [SessionEventType.addedType,
           SessionEventType.userCheckedType,
           SessionEventType.passwordCheckedType,
           SessionEventType.intentCheckedType,
           SessionEventType.webAuthNChallengedType,
           SessionEventType.webAuthNCheckedType,
           SessionEventType.totpCheckedType,
           SessionEventType.tokenSetType,
           SessionEventType.metadataSetType,
           SessionEventType.terminateType] }] ∧
    ((query wm).resourceOwner = some wm.resourceOwner ↔ wm.resourceOwner ≠ "") ∧
    ((query wm).resourceOwner = none ↔ wm.resourceOwner = "") := by
  unfold query
  split_ifs with h <;> simp_all

/-- Claim C10, counterexample: a later webauthn-checked event with
userVerified false but a ZERO `CheckedAt` payload makes
`AuthMethodTypes` report neither U2F nor passwordless (the overwritten
timestamp is the zero time, so the webauthn factor vanishes), refuting
the claim that U2F is always reported. -/
theorem c10_counterexample :
    UserAuthMethodType.u2f ∉ authMethodTypes (reduce (newSessionWriteModel "s1" "o1")
      [SessionEvent.webAuthNChecked 5 true, SessionEvent.webAuthNChecked 0 false]) ∧
    UserAuthMethodType.passwordless ∉
      authMethodTypes (reduce (newSessionWriteModel "s1" "o1")
        [SessionEvent.webAuthNChecked 5 true, SessionEvent.webAuthNChecked 0 false]) := by
  constructor <;> decide

/-- Claim C10, amended: a further webauthn-checked event overwrites both
`webAuthNCheckedAt` and `webAuthNUserVerified` with its values, and a
later webauthn-checked event with userVerified false and a NON-ZERO
`CheckedAt` after one with userVerified true makes `AuthMethodTypes`
report U2F and not passwordless. -/
theorem c10_webauthn_last_writer_wins (wm : SessionWriteModel)
    (E : List SessionEvent) (t : Nat) (v : Bool) (t1 t2 : Nat) (h : t2 ≠ 0) :
    ((reduce wm (E ++ [SessionEvent.webAuthNChecked t v])).webAuthNCheckedAt = t ∧
     (reduce wm (E ++ [SessionEvent.webAuthNChecked t v])).webAuthNUserVerified = v) ∧
    (UserAuthMethodType.u2f ∈ authMethodTypes (reduce wm
        (E ++ [SessionEvent.webAuthNChecked t1 true,
               SessionEvent.webAuthNChecked t2 false])) ∧
     UserAuthMethodType.passwordless ∉ authMethodTypes (reduce wm
        (E ++ [SessionEvent.webAuthNChecked t1 true,
               SessionEvent.webAuthNChecked t2 false]))) := by
  refine ⟨⟨?_, ?_⟩, ?_, ?_⟩
  · rw [reduce_append]
    rfl
  · rw [reduce_append]
    rfl
  · rw [reduce_append, mem_authMethodTypes_u2f]
    exact ⟨h, rfl⟩
  · rw [reduce_append, mem_authMethodTypes_passwordless]
    exact fun hcon => Bool.false_ne_true hcon.2

/-- Witness for claim C10 at concrete events and timestamps. -/
theorem c10_witness :
    ((reduce (newSessionWriteModel "s1" "o1")
        ([] ++ [SessionEvent.webAuthNChecked 3 true])).webAuthNCheckedAt = 3 ∧
     (reduce (newSessionWriteModel "s1" "o1")
        ([] ++ [SessionEvent.webAuthNChecked 3 true])).webAuthNUserVerified = true) ∧
    (UserAuthMethodType.u2f ∈ authMethodTypes (reduce (newSessionWriteModel "s1" "o1")
        ([] ++ [SessionEvent.webAuthNChecked 4 true,
                SessionEvent.webAuthNChecked 5 false])) ∧
     UserAuthMethodType.passwordless ∉
      authMethodTypes (reduce (newSessionWriteModel "s1" "o1")
        ([] ++ [SessionEvent.webAuthNChecked 4 true,
                SessionEvent.webAuthNChecked 5 false]))) :=
  c10_webauthn_last_writer_wins (newSessionWriteModel "s1" "o1") [] 3 true 4 5 (by decide)

end Zitadel
